import Mathlib

/-!
A verification development for the authentication and request-execution core
of an Okta MCP server suite.  The definitions below are shallow embeddings of
the TypeScript sources in `packages/core/src` (errors.ts, oauth.ts,
backoff.ts, the client, and the pagination helper): JavaScript values are
modelled by an explicit inductive type, machine effects (HTTP exchanges,
sleeps) by explicit inputs and outputs, and fallible code by `Option` and
`Except`.  Theorems about these definitions settle the behavioural claims of
the specification.
-/

namespace Okta

/-! ## A model of JavaScript runtime values

JSON-decoded response bodies reach `parseOktaErrorBody` as arbitrary
JavaScript values.  `JSValue` models them: `null`, `undefined`, booleans,
numbers, strings, arrays and plain objects (a list of key/value fields with
distinct keys; lookup takes the first match).  Numeric values are modelled
as exact integers: no claim in this development depends on the formatting
or rounding of non-integral floating-point numbers. -/

inductive JSValue : Type where
  | null : JSValue
  | undef : JSValue
  | bool : Bool → JSValue
  | num : Int → JSValue
  | str : String → JSValue
  | arr : List JSValue → JSValue
  | obj : List (String × JSValue) → JSValue

/-- First-match field lookup on a JavaScript object, `undefined`-free:
`none` means the property is absent. -/
def jsGet (fields : List (String × JSValue)) (k : String) : Option JSValue :=
  (fields.find? (fun p => p.1 == k)).map (fun p => p.2)

mutual

/-- JavaScript `String(v)` coercion.  Arrays stringify by joining their
elements with commas (`Array.prototype.toString`), where `null` and
`undefined` elements become the empty string; plain objects stringify to
`"[object Object]"`. -/
def jsToString : JSValue → String
  | .null => "null"
  | .undef => "undefined"
  | .bool b => if b then "true" else "false"
  | .num n => toString n
  | .str s => s
  | .arr xs => jsArrayToString xs
  | .obj _ => "[object Object]"
termination_by structural v => v

/-- Comma-join of array elements under `Array.prototype.toString`;
`null` and `undefined` elements render as the empty string. -/
def jsArrayToString : List JSValue → String
  | [] => ""
  | [.null] => ""
  | [.undef] => ""
  | [v] => jsToString v
  | .null :: rest => "," ++ jsArrayToString rest
  | .undef :: rest => "," ++ jsArrayToString rest
  | v :: rest => jsToString v ++ "," ++ jsArrayToString rest
termination_by structural l => l

end

/-- Split a character list at every separator character satisfying `p`
(the semantics of `String.prototype.split` with a single-character
separator, and of splitting on a whitespace run once empty fragments are
filtered out): the empty input yields one empty segment, and every
separator occurrence starts a new segment. -/
def splitBy (p : Char → Bool) : List Char → List (List Char)
  | [] => [[]]
  | c :: rest =>
    if p c then [] :: splitBy p rest
    else
      match splitBy p rest with
      | seg :: segs => (c :: seg) :: segs
      | [] => [[c]]

/-- String-level wrapper for `splitBy`. -/
def jsSplit (p : Char → Bool) (s : String) : List String :=
  (splitBy p s.toList).map String.mk

/-- `typeof v === "object"`: true exactly for plain objects, arrays and
`null`. -/
def isObjectType : JSValue → Bool
  | .obj _ => true
  | .arr _ => true
  | .null => true
  | _ => false

/-- The JavaScript `in` operator restricted to the shapes that pass the
`typeof` test: named properties exist only on plain objects (arrays carry
only index keys in this model). -/
def hasProp : JSValue → String → Bool
  | .obj fields, k => (jsGet fields k).isSome
  | _, _ => false

/-- `x ?? ""` applied to an optional property value: an absent, `null` or
`undefined` property falls back to the empty string. -/
def nullishToEmptyString : Option JSValue → JSValue
  | none => .str ""
  | some .null => .str ""
  | some .undef => .str ""
  | some v => v

/-- `(c as Record<string, unknown>)?.errorSummary`: optional chaining on an
arbitrary value.  `null`/`undefined` receivers yield `undefined`; property
access on primitives and arrays yields `undefined`; on objects it is field
lookup. -/
def optChainErrorSummary : JSValue → Option JSValue
  | .obj fields => jsGet fields "errorSummary"
  | _ => none

/-! ## errors.ts — the error translator -/

/-- One sub-cause of an Okta error body (source: interface `OktaErrorCause`). -/
structure OktaErrorCause where
  errorSummary : String
deriving Repr, DecidableEq

/-- The structured Okta error body (source: interface `OktaErrorBody`). -/
structure OktaErrorBody where
  errorCode : String
  errorSummary : String
  errorLink : String
  errorId : String
  errorCauses : List OktaErrorCause
deriving Repr, DecidableEq

/-- Embedding of `parseOktaErrorBody` from errors.ts: returns `none` unless
the value is a non-null `typeof "object"` value carrying both an
`errorCode` and an `errorSummary` property (only plain objects can); on a
match, all fields are `String(...)`-coerced, with `errorLink` and `errorId`
defaulting to `""` and `errorCauses` to `[]` when absent or not an array. -/
def parseOktaErrorBody (data : JSValue) : Option OktaErrorBody :=
  if !(isObjectType data) || data matches .null
     || !(hasProp data "errorCode") || !(hasProp data "errorSummary") then
    none
  else
    match data with
    | .obj fields =>
      some {
        errorCode := jsToString ((jsGet fields "errorCode").getD .undef)
        errorSummary := jsToString ((jsGet fields "errorSummary").getD .undef)
        errorLink := jsToString (nullishToEmptyString (jsGet fields "errorLink"))
        errorId := jsToString (nullishToEmptyString (jsGet fields "errorId"))
        errorCauses :=
          match jsGet fields "errorCauses" with
          | some (.arr cs) =>
            cs.map (fun c =>
              { errorSummary :=
                  jsToString (nullishToEmptyString (optChainErrorSummary c)) })
          | _ => [] }
    | _ => none


/-! The static code-to-description table `OKTA_ERROR_CODES` from errors.ts,
keyed by exact code match. -/

/-- Complete mapping of Okta error codes to human-readable descriptions
(source: `OKTA_ERROR_CODES` in errors.ts). -/
def OKTA_ERROR_CODES : List (String × String) := [
  ("E0000001", "API validation failed"),
  ("E0000002", "Illegal API argument"),
  ("E0000003", "Request body was not well-formed"),
  ("E0000004", "Authentication failed"),
  ("E0000005", "Invalid session"),
  ("E0000006", "Access denied"),
  ("E0000007", "Resource not found"),
  ("E0000008", "Requested path not found"),
  ("E0000009", "Internal server error"),
  ("E0000010", "Service is in read-only mode"),
  ("E0000011", "Invalid token provided"),
  ("E0000012", "Unsupported media type"),
  ("E0000013", "Invalid client app ID"),
  ("E0000014", "Update of credentials failed"),
  ("E0000015", "Feature not enabled — you do not have permission"),
  ("E0000016", "Activation failed — user is already active"),
  ("E0000017", "Password reset failed"),
  ("E0000018", "Bad request — Accept/Content-Type headers likely not set"),
  ("E0000019", "Bad request — Accept/Content-Type headers do not match supported values"),
  ("E0000020", "Bad request"),
  ("E0000021", "Bad request — unsupported Content-Type"),
  ("E0000022", "HTTP method not supported for this endpoint"),
  ("E0000023", "Operation failed — user profile is mastered under another system"),
  ("E0000024", "Unsupported app metadata operation"),
  ("E0000025", "App version assignment failed"),
  ("E0000026", "API endpoint deprecated"),
  ("E0000027", "Group push bad request"),
  ("E0000028", "Missing required request parameter"),
  ("E0000029", "Invalid paging request"),
  ("E0000030", "Invalid date format — use yyyy-MM-dd\x27T\x27HH:mm:ss.SSSZZ"),
  ("E0000031", "Invalid search criteria"),
  ("E0000032", "Unlock not allowed for this user"),
  ("E0000033", "Cannot specify search query and filter in the same request"),
  ("E0000034", "Forgot password not allowed for this user"),
  ("E0000035", "Change password not allowed for this user"),
  ("E0000036", "Change recovery question not allowed for this user"),
  ("E0000037", "Type mismatch"),
  ("E0000038", "Operation not allowed in the user\x27s current status"),
  ("E0000039", "Operation on application settings failed"),
  ("E0000040", "Application label must be unique"),
  ("E0000041", "Credentials should not be set based on the scheme"),
  ("E0000042", "Setting error page redirect URL failed"),
  ("E0000043", "Self-service application assignment not enabled"),
  ("E0000044", "Self-service application assignment not supported"),
  ("E0000045", "Field mapping bad request"),
  ("E0000046", "Deactivate application for user forbidden"),
  ("E0000047", "API rate limit exceeded"),
  ("E0000048", "Entity not found"),
  ("E0000049", "Invalid SCIM data from SCIM implementation"),
  ("E0000050", "Invalid SCIM data from client"),
  ("E0000051", "No response from SCIM implementation"),
  ("E0000052", "Endpoint not implemented"),
  ("E0000053", "Invalid SCIM filter"),
  ("E0000054", "Invalid pagination properties"),
  ("E0000055", "Duplicate group"),
  ("E0000056", "Delete application forbidden"),
  ("E0000057", "Access denied due to policy"),
  ("E0000058", "Access requires MFA"),
  ("E0000059", "Connector configuration test failure"),
  ("E0000060", "Unsupported operation"),
  ("E0000061", "Tab error"),
  ("E0000062", "User already assigned to application"),
  ("E0000063", "Invalid combination of parameters"),
  ("E0000064", "Password expired — must be changed"),
  ("E0000065", "Internal error processing app metadata"),
  ("E0000066", "APNS not configured"),
  ("E0000067", "Factor service timeout"),
  ("E0000068", "Invalid passcode/answer"),
  ("E0000069", "User locked"),
  ("E0000070", "Waiting for factor acknowledgement"),
  ("E0000071", "Unsupported OS version"),
  ("E0000072", "MIM policy disallowed enrollment"),
  ("E0000073", "User rejected authentication"),
  ("E0000074", "Factor service error"),
  ("E0000075", "Cannot modify attribute — field mapping with profile push enabled"),
  ("E0000076", "Cannot modify app user — mastered by external app"),
  ("E0000077", "Cannot modify read-only attribute"),
  ("E0000078", "Cannot modify immutable attribute"),
  ("E0000079", "Operation not allowed in current authentication state"),
  ("E0000080", "Password does not meet complexity requirements"),
  ("E0000081", "Cannot modify reserved attribute for this application"),
  ("E0000082", "Passcode already used — wait for new code"),
  ("E0000083", "Passcode valid but exceeded time window"),
  ("E0000084", "App evaluation error"),
  ("E0000085", "Sign-on denied — no permission to access account"),
  ("E0000086", "Policy cannot be activated at this time"),
  ("E0000087", "Recovery question answer did not match"),
  ("E0000088", "Org subdomain already exists"),
  ("E0000089", "Org name validation failed"),
  ("E0000090", "Role already assigned to user"),
  ("E0000091", "Provided role type does not match required role type"),
  ("E0000092", "Access requires re-authentication"),
  ("E0000093", "Target count limit exceeded"),
  ("E0000094", "Unsupported filter"),
  ("E0000095", "Recovery not allowed for unknown user"),
  ("E0000096", "Certificate already uploaded"),
  ("E0000097", "No verified phone number on file"),
  ("E0000098", "Invalid phone number"),
  ("E0000099", "Only US and Canada numbers allowed"),
  ("E0000100", "Unable to perform search query"),
  ("E0000101", "Issue with app binary file"),
  ("E0000102", "YubiKey cannot be deleted while assigned — deactivate first"),
  ("E0000103", "Device action already queued or in progress"),
  ("E0000104", "Device already locked"),
  ("E0000105", "Recovery link expired or previously used"),
  ("E0000107", "Entity not in expected state for transition"),
  ("E0000108", "Duplicate resource"),
  ("E0000109", "SMS recently sent — wait 30 seconds"),
  ("E0000110", "Link expired or previously used"),
  ("E0000111", "Cannot modify read-only object"),
  ("E0000112", "Cannot update user — still being activated"),
  ("E0000113", "Factor additional challenge required"),
  ("E0000115", "Issue uploading app binary file"),
  ("E0000116", "Hosted mobile app upload error"),
  ("E0000117", "Cannot assign apps to inactive user"),
  ("E0000118", "Email recently sent — wait 5 seconds"),
  ("E0000119", "Account locked — contact administrator"),
  ("E0000120", "Custom domain already in use by another org"),
  ("E0000121", "Invalid phone extension"),
  ("E0000122", "Accept header must contain application/json"),
  ("E0000123", "Enum/oneOf const values mismatch"),
  ("E0000124", "Expire-on-create requires a password"),
  ("E0000125", "Expire-on-create requires activate=true"),
  ("E0000126", "Self-service not supported with current settings"),
  ("E0000127", "Invalid linked object definition"),
  ("E0000131", "Feature validation error"),
  ("E0000132", "Registration already active for user/client/device combo"),
  ("E0000133", "Phone call recently made — wait 30 seconds"),
  ("E0000134", "Could not communicate with inline hook"),
  ("E0000135", "Inline hook responded with error"),
  ("E0000136", "Mobile phone conflict"),
  ("E0000137", "No response from inline hook (timeout)"),
  ("E0000138", "Internal error with telephony provider(s)"),
  ("E0000139", "Telephony provider error"),
  ("E0000140", "Telephony opt-out error"),
  ("E0000141", "Feature cannot be enabled/disabled due to dependency conflicts"),
  ("E0000142", "User type cannot be deleted"),
  ("E0000143", "App instance operation not allowed"),
  ("E0000145", "User data inconsistent with schema — cannot parse"),
  ("E0000146", "Organization SMS limit reached for 24-hour period"),
  ("E0000147", "Organization call limit reached for 24-hour period"),
  ("E0000148", "Cannot modify/disable authenticator — enabled in policies"),
  ("E0000149", "HTTP request not acceptable"),
  ("E0000150", "SMS rate limit reached"),
  ("E0000151", "Call rate limit reached"),
  ("E0000152", "Illegal device status — cannot perform action"),
  ("E0000153", "Invalid device ID — no longer exists"),
  ("E0000154", "Invalid factor ID — not currently active"),
  ("E0000155", "User not currently active"),
  ("E0000156", "Invalid user ID — user does not exist or was deleted"),
  ("E0000157", "Authenticator already active with this key"),
  ("E0000158", "Invalid enrollment — user verification required"),
  ("E0000159", "Invalid enrollment — FIPS compliance required"),
  ("E0000161", "Domain name must be unique"),
  ("E0000162", "Domain count limit reached"),
  ("E0000163", "Domain ID not found"),
  ("E0000165", "Domain not verified"),
  ("E0000166", "CAPTCHA limit reached — one per org"),
  ("E0000167", "Cannot deactivate IdP used by authenticator"),
  ("E0000168", "CAPTCHA associated with org — unassociate before removing"),
  ("E0000170", "Org subdomain is reserved"),
  ("E0000171", "Org subdomain locked by another request"),
  ("E0000172", "Org subdomain exceeds max length"),
  ("E0000174", "Cannot disable FastPass — used by sign-on policies"),
  ("E0000176", "Failed to create log streaming event source"),
  ("E0000177", "Failed to delete log streaming event source"),
  ("E0000178", "Realm cannot be deleted"),
  ("E0000179", "Required attribute is externally sourced"),
  ("E0000180", "Factor currently suspended"),
  ("E0000181", "DNS challenge not found — service temporarily unavailable"),
  ("E0000182", "Default email template customization already exists"),
  ("E0000183", "Email customization for that language already exists"),
  ("E0000184", "Default email customization cannot be deleted"),
  ("E0000185", "Default email customization isDefault cannot be set to false"),
  ("E0000186", "Free tier SMS limit reached for 30-day period"),
  ("E0000187", "Cannot delete push provider — used by custom authenticator"),
  ("E0000188", "Domain update conflict"),
  ("E0000189", "Template does not support the recipients value"),
  ("E0000190", "Delete LDAP interface instance forbidden"),
  ("E0000191", "Verification timed out"),
  ("E0000192", "Roles cannot be granted to groups with membership rules"),
  ("E0000193", "Roles can only be granted to groups with 5000 or fewer users"),
  ("E0000194", "Roles can only be granted to Okta, AD, or LDAP groups"),
  ("E0000195", "API validation failed due to conflict"),
  ("E0000197", "Email domain name must be unique"),
  ("E0000198", "Email domain not found"),
  ("E0000200", "Default brand cannot be deleted"),
  ("E0000201", "Brand associated with domain cannot be deleted"),
  ("E0000202", "Brand name already exists"),
  ("E0000203", "Failed to associate domain with brand"),
  ("E0000204", "SMS rate limit reached"),
  ("E0000205", "Call rate limit reached"),
  ("E0000207", "Incorrect username or password"),
  ("E0000208", "Failed to get access token — invalid request"),
  ("E0000209", "AAGUID group used in enroll policy — update policy first"),
  ("E0000211", "Roles cannot be granted to built-in groups"),
  ("E0000212", "Origin validation failed"),
  ("E0000213", "Cannot update page content for the default brand"),
  ("E0000214", "User has no CIBA-enabled authenticator enrollments"),
  ("E0000215", "API endpoint no longer available"),
  ("E0000217", "Invalid status — cannot validate email domain"),
  ("E0000218", "Email domain could not be verified by mail provider"),
  ("E0000219", "Cannot result in 0 phishing-resistant authenticators"),
  ("E0000220", "Brand count limit reached"),
  ("E0000221", "Realm limit exceeded"),
  ("E0000222", "Only one SMTP server can be enabled at a time"),
  ("E0000223", "Connection with SMTP server failed"),
  ("E0000224", "Authentication with SMTP server failed"),
  ("E0000225", "Maximum enrolled SMTP servers reached"),
  ("E0000226", "Active telephony inline hook required for Phone authenticator"),
  ("E0000227", "Roles can only be granted to service application type"),
  ("E0000228", "SMS template customization not permitted"),
  ("E0000229", "Invalid enrollment — biometrics with PIN fallback required"),
  ("E0000230", "Another authenticator already associated with this IdP"),
  ("E0000231", "ETag value does not match"),
  ("E0000232", "Authenticator enrollment with same nickname already exists"),
  ("E0000233", "Okta Verify SMS setup link requires paid account"),
  ("E0000235", "Resource selector error"),
  ("E0000236", "Email language does not conform to BCP 47 standard"),
  ("E0000237", "Language not permitted for email customization"),
  ("E0000239", "Policy priorities being reconciled — try again later"),
  ("E0000240", "Request timed out waiting for agent"),
  ("E0000241", "No connected agents"),
  ("E0000242", "ETag syntax is invalid"),
  ("E0000243", "Bad request"),
  ("E0000244", "Conflicting default email customizations — reset templates"),
  ("E0000245", "Knowledge method in first auth step — requires possession factor first"),
  ("E0000246", "Cannot deactivate auth method — in use by authentication policies"),
  ("E0000247", "Organization does not support SMS or Voice authentication"),
  ("E0000248", "IdP used by Okta Account Management Policy rules"),
  ("E0000249", "Group rules still being set up — try again later"),
  ("E0000250", "IdP Trust claims dependency — update policies first"),
  ("E0000251", "IdP Trust claims dependency in GSP policy"),
  ("E0000252", "IdP Trust claims dependency in ASOP policy"),
  ("E0000253", "User type still being initialized"),
  ("E0000254", "Email template settings update conflict"),
  ("E0000255", "Cannot delete app with Published version status"),
  ("E0000256", "Response header too large"),
  ("E0000257", "Cannot update content for the default brand"),
  ("E0000258", "Unsupported well-known URI path"),
  ("E0000259", "Login not allowed — breached credential, password must be reset"),
  ("E0000260", "Developer org has been deactivated"),
  ("E0000261", "Invalid linked object value for this user"),
  ("E0000262", "Device Posture IdP conditions — update policies first"),
  ("E0000263", "Duplicate standard IAM role assignment"),
  ("E0000264", "Active telephony hook or provider required for Phone authenticator"),
  ("E0000265", "Device registration already in progress"),
  ("E0000266", "Failed to get access token for SMTP server")
]

/-- `OKTA_ERROR_CODES[code]`: exact-match lookup in the static table,
`none` (JavaScript `undefined`) when the code has no entry. -/
def lookupErrorCode (code : String) : Option String :=
  (OKTA_ERROR_CODES.find? (fun p => p.1 == code)).map (fun p => p.2)

/-- The display message built by the `OktaApiError` constructor in
errors.ts.  JavaScript tests `friendly ?`, so an entry that is the empty
string would also take the fallback branch; every actual table entry is
nonempty. -/
def oktaApiErrorMessage (body : OktaErrorBody) : String :=
  match lookupErrorCode body.errorCode with
  | some friendly =>
    if friendly = "" then body.errorCode ++ ": " ++ body.errorSummary
    else body.errorCode ++ ": " ++ friendly ++ " — " ++ body.errorSummary
  | none => body.errorCode ++ ": " ++ body.errorSummary

/-- The structured error constructed by `new OktaApiError(status, body)`
(source: class `OktaApiError` in errors.ts). -/
structure OktaApiError where
  status : Int
  message : String
  errorCode : String
  errorSummary : String
  errorId : String
  errorCauses : List OktaErrorCause
  friendlyMessage : String
deriving Repr, DecidableEq

/-- Embedding of the `OktaApiError` constructor body. -/
def OktaApiError.ofBody (status : Int) (body : OktaErrorBody) : OktaApiError :=
  { status := status
    message := oktaApiErrorMessage body
    errorCode := body.errorCode
    errorSummary := body.errorSummary
    errorId := body.errorId
    errorCauses := body.errorCauses
    friendlyMessage := (lookupErrorCode body.errorCode).getD body.errorSummary }

/-! ## A model of JavaScript string-to-number conversion

`backoff.ts` evaluates `Number(retryAfterHeader)` and `isNaN(...)` on the
raw `Retry-After` header string.  `jsStringToNumber` models the ECMAScript
`StringNumericLiteral` grammar: leading/trailing whitespace is trimmed, the
empty remainder is `0`, and the remainder must be a signed decimal literal,
`Infinity`, or an unsigned `0x`/`0o`/`0b` integer literal — anything else
is `NaN`.  A finite value is kept as the exact decimal the literal
denotes, `fin m e` standing for `m * 10 ^ e` (see `JSNum.toRat`); float64
rounding is not modelled — it never affects whether a string is numeric,
which is what the retry guard inspects, and every concrete value this
development evaluates is an integer, where the two agree. -/

inductive JSNum : Type where
  | nan : JSNum
  | inf : Bool → JSNum
  | fin : Int → Int → JSNum
deriving Repr, DecidableEq

/-- The numeric value of a finite `JSNum`: `fin m e` denotes
`m * 10 ^ e`. -/
def JSNum.toRat : JSNum → Option ℚ
  | .nan => none
  | .inf _ => none
  | .fin m e => some ((m : ℚ) * 10 ^ e)

/-- ECMAScript `StrWhiteSpaceChar` (the common cases: space, tab, line
feed, carriage return, vertical tab, form feed, no-break space). -/
def isJsWhitespace (c : Char) : Bool :=
  c = ' ' || c = '\t' || c = '\n' || c = '\r' || c = '\x0b' || c = '\x0c' || c = '\xa0'

/-- JavaScript `String.prototype.trim`: strip leading and trailing
whitespace. -/
def jsTrim (s : String) : String :=
  String.mk ((s.toList.dropWhile isJsWhitespace).reverse.dropWhile isJsWhitespace).reverse

/-- Numeric value of a decimal digit list (most significant first). -/
def digitsToNat (ds : List Char) : Nat :=
  ds.foldl (fun acc c => 10 * acc + (c.toNat - 48)) 0

/-- Numeric value of a base-`b` digit list, given a per-digit decoder. -/
def radixDigitsToNat (b : Nat) (val : Char → Nat) (ds : List Char) : Nat :=
  ds.foldl (fun acc c => b * acc + val c) 0

/-- Hexadecimal digit value. -/
def hexDigitVal (c : Char) : Nat :=
  if c.isDigit then c.toNat - 48
  else if 'a' ≤ c ∧ c ≤ 'f' then c.toNat - 87
  else if 'A' ≤ c ∧ c ≤ 'F' then c.toNat - 55
  else 0

/-- Is `c` a hexadecimal digit? -/
def isHexDigit (c : Char) : Bool :=
  c.isDigit || ('a' ≤ c && c ≤ 'f') || ('A' ≤ c && c ≤ 'F')

/-- Parse the optional exponent part of a decimal literal; the whole
remainder must be consumed.  Returns the exponent (default `0`). -/
def parseExponentPart : List Char → Option Int
  | [] => some 0
  | c :: rest =>
    if c = 'e' ∨ c = 'E' then
      match rest with
      | '+' :: ds => if ds ≠ [] ∧ ds.all (·.isDigit) then some (digitsToNat ds) else none
      | '-' :: ds => if ds ≠ [] ∧ ds.all (·.isDigit) then some (-(digitsToNat ds : Int)) else none
      | ds => if ds ≠ [] ∧ ds.all (·.isDigit) then some (digitsToNat ds) else none
    else none

/-- Parse an unsigned ECMAScript `StrUnsignedDecimalLiteral` (digits, an
optional fraction, an optional exponent); the whole input must be
consumed.  `none` is `NaN`. -/
def parseUnsignedDecimal (cs : List Char) : Option (Int × Int) :=
  let intPart := cs.takeWhile (·.isDigit)
  let rest := cs.dropWhile (·.isDigit)
  match rest with
  | '.' :: rest2 =>
    let fracPart := rest2.takeWhile (·.isDigit)
    let rest3 := rest2.dropWhile (·.isDigit)
    if intPart = [] ∧ fracPart = [] then none
    else
      (parseExponentPart rest3).map (fun e =>
        ((digitsToNat intPart * 10 ^ fracPart.length + digitsToNat fracPart : Nat),
         e - fracPart.length))
  | _ =>
    if intPart = [] then none
    else (parseExponentPart rest).map (fun e => ((digitsToNat intPart : Int), e))

/-- Parse the part of an ECMAScript string numeric literal that may follow
a sign: a decimal literal or the word `Infinity`. -/
def parseSignableLiteral (cs : List Char) : JSNum :=
  if cs = "Infinity".toList then .inf false
  else
    match parseUnsignedDecimal cs with
    | some me => .fin me.1 me.2
    | none => .nan

/-- Parse an unsigned ECMAScript string numeric literal: a decimal
literal, `Infinity`, or a `0x`/`0o`/`0b` non-decimal integer literal. -/
def parseUnsignedLiteral (cs : List Char) : JSNum :=
  match cs with
  | '0' :: p :: ds =>
    if p = 'x' ∨ p = 'X' then
      if ds ≠ [] ∧ ds.all isHexDigit then .fin (radixDigitsToNat 16 hexDigitVal ds : Int) 0
      else .nan
    else if p = 'o' ∨ p = 'O' then
      if ds ≠ [] ∧ ds.all (fun c => '0' ≤ c ∧ c ≤ '7') then
        .fin (radixDigitsToNat 8 (fun c => c.toNat - 48) ds : Int) 0
      else .nan
    else if p = 'b' ∨ p = 'B' then
      if ds ≠ [] ∧ ds.all (fun c => c = '0' ∨ c = '1') then
        .fin (radixDigitsToNat 2 (fun c => c.toNat - 48) ds : Int) 0
      else .nan
    else parseSignableLiteral cs
  | _ => parseSignableLiteral cs

/-- Negate a JavaScript number. -/
def JSNum.neg : JSNum → JSNum
  | .nan => .nan
  | .inf b => .inf !b
  | .fin m e => .fin (-m) e

/-- The ECMAScript `Number(string)` conversion (see the module note above
for the modelling scope). -/
def jsStringToNumber (s : String) : JSNum :=
  let t := ((s.toList.dropWhile isJsWhitespace).reverse.dropWhile isJsWhitespace).reverse
  match t with
  | [] => .fin 0 0
  | '+' :: rest => parseSignableLiteral rest
  | '-' :: rest => (parseSignableLiteral rest).neg
  | _ => parseUnsignedLiteral t

/-! ## backoff.ts — the 429 retry interceptor

The interceptor is a response-rejection handler on an Axios instance: a
successful response passes through untouched (the success slot of the
interceptor is `undefined`), and a failed one either retries the request
or rejects.  The model below replays the handler over an explicit list of
attempt results (the `i`-th entry is what the `i`-th dispatch of the
logical request produced), threading the per-request `_retryCount` that
the code stores on the replayed request config. -/

/-- Retry ceiling (source: `MAX_RETRIES` in backoff.ts). -/
def MAX_RETRIES : Nat := 3

/-- The data of one Axios failure as seen by the interceptor:
whether `error.config` is present, `error.response?.status`, and the raw
`error.response.headers["retry-after"]` string (`none` when the header is
absent).  `errId` is an identity tag so distinct failures of one logical
request can be told apart. -/
structure RetryErr where
  errId : Nat
  hasConfig : Bool
  status : Option Nat
  retryAfter : Option String
deriving Repr, DecidableEq

/-- The result of one dispatch of the request: a fulfilled response or a
failure handed to the interceptor. -/
inductive AttemptResult : Type where
  | success : Nat → AttemptResult
  | failure : RetryErr → AttemptResult
deriving Repr, DecidableEq

/-- What the caller of the logical request finally observes. -/
inductive RequestOutcome : Type where
  | fulfilled : Nat → RequestOutcome
  | rejected : RetryErr → RequestOutcome
  | pending : RequestOutcome
deriving Repr, DecidableEq

/-- The interceptor decision sequence from backoff.ts: reject when the
config is missing, reject when the status is not 429, reject when the
counter has reached `MAX_RETRIES`; otherwise retry. -/
def interceptorRetries (e : RetryErr) (retryCount : Nat) : Bool :=
  if !e.hasConfig then false
  else if !(e.status == some 429) then false
  else if MAX_RETRIES ≤ retryCount then false
  else true

/-- The wait before a replay, in seconds (source: `retryAfterSeconds` in
backoff.ts): the header value under `Number(...)` when the header is
present, nonempty (truthy) and not `NaN`; otherwise `1`. -/
def retryAfterSeconds (h : Option String) : JSNum :=
  match h with
  | none => .fin 1 0
  | some s =>
    if s = "" then .fin 1 0
    else
      match jsStringToNumber s with
      | .nan => .fin 1 0
      | v => v

/-- Replay the interceptor over the attempt results of one logical
request, starting from retry counter `retryCount` (`0` for a fresh
request).  Returns the final outcome, the number of replays performed,
and the list of per-replay waits in seconds.  `pending` means the modelled
attempt list ran out while a replay was still due. -/
def runWithRetries : List AttemptResult → Nat → RequestOutcome × Nat × List JSNum
  | [], _ => (.pending, 0, [])
  | .success i :: _, _ => (.fulfilled i, 0, [])
  | .failure e :: rest, retryCount =>
    if interceptorRetries e retryCount then
      let w := retryAfterSeconds e.retryAfter
      let r := runWithRetries rest (retryCount + 1)
      (r.1, r.2.1 + 1, w :: r.2.2)
    else (.rejected e, 0, [])

/-! ## oauth.ts — the token provider and the credential resolver -/

/-- Proactive-refresh buffer in milliseconds (source: `EXPIRY_BUFFER_MS`
in oauth.ts). -/
def EXPIRY_BUFFER_MS : Int := 60000

/-- The mutable token cache of an `OAuthTokenProvider`: `accessToken`
(`none` is the initial `null`) and `expiresAt` (epoch milliseconds,
initially `0`). -/
structure TokenState where
  accessToken : Option String
  expiresAt : Int
deriving Repr, DecidableEq

/-- The cache of a freshly constructed provider. -/
def TokenState.initial : TokenState := { accessToken := none, expiresAt := 0 }

/-- The relevant fields of a successful `2xx` token-endpoint response
body. -/
structure TokenResponse where
  access_token : String
  expires_in : Int
deriving Repr, DecidableEq

/-- Embedding of the success path of `OAuthTokenProvider.refresh`: the
HTTP exchange is modelled by the given response `resp` and the clock by
`now` (epoch milliseconds).  The new token is cached with
`expiresAt = now + expires_in * 1000` and returned.  (A non-2xx exchange
throws before any cache update and returns no value; it is outside every
claim about the cache.) -/
def refresh (now : Int) (resp : TokenResponse) : String × TokenState :=
  (resp.access_token,
   { accessToken := some resp.access_token
     expiresAt := now + resp.expires_in * 1000 })

/-- Embedding of `OAuthTokenProvider.getAccessToken`.  The guard mirrors
`this.accessToken && Date.now() < this.expiresAt - EXPIRY_BUFFER_MS`:
JavaScript truthiness makes an empty-string cached token fail the first
conjunct.  The returned `Bool` records whether a refresh was performed
(the only I/O the method can do). -/
def getAccessToken (st : TokenState) (now : Int) (resp : TokenResponse) :
    String × TokenState × Bool :=
  match st.accessToken with
  | some tok =>
    if tok ≠ "" ∧ now < st.expiresAt - EXPIRY_BUFFER_MS then (tok, st, false)
    else
      let r := refresh now resp
      (r.1, r.2, true)
  | none =>
    let r := refresh now resp
    (r.1, r.2, true)

/-- Errors a credential resolution can produce (source: the `throw`
sites reachable from `resolvePrivateKey` in oauth.ts).
`invalidCredentialFormat` is the error whose message is
"OKTA_PRIVATE_KEY looks like JSON but could not be parsed as a JWK.";
`cryptoFailure e` is an error of the underlying crypto layer propagated
unchanged (its payload `e` is whatever that layer reported). -/
inductive ResolveError : Type where
  | invalidCredentialFormat : ResolveError
  | cryptoFailure : String → ResolveError
deriving Repr, DecidableEq

/-- The global replace `pem.replace(/\\n/g, "\n")`: every literal
two-character backslash-n sequence becomes a newline, scanning left to
right without overlap. -/
def replaceEscapedNewlines : List Char → List Char
  | '\\' :: 'n' :: rest => '\n' :: replaceEscapedNewlines rest
  | c :: rest => c :: replaceEscapedNewlines rest
  | [] => []

/-- String-level wrapper for `replaceEscapedNewlines`. -/
def unescapeNewlines (s : String) : String :=
  String.mk (replaceEscapedNewlines s.toList)

/-- Embedding of `resolvePrivateKey` from oauth.ts, parameterised over the
two external primitives it calls:

* `jwkResolve t` models `crypto.createPrivateKey({key: JSON.parse(t),
  format: "jwk"})` on the trimmed input — `none` when either the JSON
  parse or the JWK interpretation throws (both are caught by the same
  `try`);
* `pemResolve p` models `crypto.createPrivateKey(p)` — `Except.error e`
  when the crypto layer throws `e`.

The input is trimmed; if the trimmed text starts with `{` (its first
character — `startsWith` on a one-character pattern) it takes the JWK
path, failures becoming `invalidCredentialFormat`; otherwise every
literal two-character backslash-n sequence is replaced by a newline and
the PEM path is taken, failures surfacing as-is. -/
def resolvePrivateKey {Key : Type}
    (jwkResolve : String → Option Key)
    (pemResolve : String → Except String Key)
    (keyInput : String) : Except ResolveError Key :=
  let trimmed := jsTrim keyInput
  if trimmed.toList.head? = some '{' then
    match jwkResolve trimmed with
    | some k => .ok k
    | none => .error .invalidCredentialFormat
  else
    match pemResolve (unescapeNewlines trimmed) with
    | .ok k => .ok k
    | .error e => .error (.cryptoFailure e)

/-! ## pagination.ts — the Link-header parser and the page walker -/

/-- First match of the regular expression `<([^>]+)>` in a string: the
content between the first `<` that is followed, after at least one
non-`>` character, by a `>`.  Scans candidate start positions left to
right, as `String.prototype.match` does. -/
def matchAngleAux : List Char → Option String
  | [] => none
  | '<' :: rest =>
    let content := rest.takeWhile (fun c => c ≠ '>')
    match rest.dropWhile (fun c => c ≠ '>') with
    | '>' :: _ =>
      if content = [] then matchAngleAux rest
      else some (String.mk content)
    | _ => matchAngleAux rest
  | _ :: rest => matchAngleAux rest

/-- First match of `<([^>]+)>` in a string (capture group). -/
def matchAngle (s : String) : Option String := matchAngleAux s.toList

/-- First match of the regular expression `rel="([^"]+)"` in a string:
the content between the quotes of the first `rel="..."` with a nonempty,
closed quoted value. -/
def matchRelAux : List Char → Option String
  | 'r' :: 'e' :: 'l' :: '=' :: '"' :: rest =>
    let content := rest.takeWhile (fun c => c ≠ '"')
    match rest.dropWhile (fun c => c ≠ '"') with
    | '"' :: _ =>
      if content = [] then matchRelAux ('e' :: 'l' :: '=' :: '"' :: rest)
      else some (String.mk content)
    | _ => matchRelAux ('e' :: 'l' :: '=' :: '"' :: rest)
  | _ :: rest => matchRelAux rest
  | [] => none

/-- First match of `rel="([^"]+)"` in a string (capture group). -/
def matchRel (s : String) : Option String := matchRelAux s.toList

/-- The contribution of one comma-split segment of a Link header: its
`<...>` URL when the segment has both a URL and a `rel` value equal to
`"next"`. -/
def segmentNext (part : String) : Option String :=
  match matchAngle part, matchRel part with
  | some url, some rel => if rel = "next" then some url else none
  | _, _ => none

/-- Embedding of `parseLinkHeader` from the pagination module: split the
header on commas and fold the segments left to right, each matching
segment overwriting `result.next`.  A missing or empty (falsy) header
yields no link. -/
def parseLinkHeader (linkHeader : Option String) : Option String :=
  match linkHeader with
  | none => none
  | some s =>
    if s = "" then none
    else
      (jsSplit (fun c => c = ',') s).foldl
        (fun acc part =>
          match segmentNext part with
          | some url => some url
          | none => acc)
        none

/-- Is `c` allowed in a URL scheme after the first character? -/
def isSchemeChar (c : Char) : Bool :=
  c.isAlphanum || c = '+' || c = '-' || c = '.'

/-- Split a character list at the first `://`, returning the text before
it and the text after it. -/
def splitOnSchemeSep : List Char → Option (List Char × List Char)
  | [] => none
  | ':' :: '/' :: '/' :: rest => some ([], rest)
  | c :: rest => (splitOnSchemeSep rest).map (fun p => (c :: p.1, p.2))

/-- Model of `new URL(s).pathname + new URL(s).search` for hierarchical
`scheme://authority[/path][?query][#fragment]` URLs, the shape of every
Okta pagination cursor.  `none` models the `TypeError` thrown by the URL
constructor (no `://`, an invalid scheme, or an empty authority — the
relative-path case the code catches).  An empty path reads as `/`, the
query keeps its `?`, and any fragment is dropped.  Percent-encoding and
dot-segment normalisation of exotic inputs are not modelled; no claim
exercises them. -/
def urlPathQuery (s : String) : Option String :=
  match splitOnSchemeSep s.toList with
  | none => none
  | some (scheme, rest) =>
    match scheme with
    | [] => none
    | c :: cs =>
      if c.isAlpha ∧ cs.all isSchemeChar then
        let auth := rest.takeWhile (fun ch => ¬(ch = '/' ∨ ch = '?' ∨ ch = '#'))
        let tail := rest.dropWhile (fun ch => ¬(ch = '/' ∨ ch = '?' ∨ ch = '#'))
        if auth = [] then none
        else
          let pathQuery := tail.takeWhile (fun ch => ch ≠ '#')
          match pathQuery with
          | [] => some "/"
          | '?' :: _ => some ("/" ++ String.mk pathQuery)
          | _ => some (String.mk pathQuery)
      else none

/-- The URL the walker requests after following a `next` link (source:
the `try { new URL(next) } catch` block in `fetchAllPages`): the cursor
URL's path+query when it parses as an absolute URL, the raw string
otherwise. -/
def resolveNextUrl (next : String) : String :=
  match urlPathQuery next with
  | some pq => pq
  | none => next

/-- One page response as the walker sees it: the body and the `link`
response header (`none` when absent or not a string). -/
structure PageResponse (β : Type) where
  data : β
  link : Option String

/-- One request the walker issues: the URL and the query parameters
passed to `client.get`. -/
structure PageRequest (α : Type) where
  url : String
  params : Option α
deriving Repr, DecidableEq

/-- Embedding of the `fetchAllPages` loop.  The generator's HTTP
exchanges are modelled by an explicit list of responses (the `i`-th entry
answers the `i`-th request).  Returns the requests issued, the pages
yielded (in order), and whether the walk terminated by finding no `next`
link (`false` means the modelled response list ran out first).  After a
`next` link is followed, the caller-supplied `params` are replaced by
`none` — the cursor URL already encodes the query. -/
def fetchAllPages {α β : Type} : String → Option α → List (PageResponse β) →
    List (PageRequest α) × List β × Bool
  | _, _, [] => ([], [], false)
  | url, params, r :: rest =>
    match parseLinkHeader r.link with
    | some next =>
      let w := fetchAllPages (resolveNextUrl next) none rest
      (⟨url, params⟩ :: w.1, r.data :: w.2.1, w.2.2)
    | none => ([⟨url, params⟩], [r.data], true)

/-! ## The OktaClient constructor — auth-mode selection and scope merging -/

/-- JavaScript truthiness of an optional environment string: only a
present, nonempty string is truthy. -/
def truthyEnv : Option String → Option String
  | none => none
  | some s => if s = "" then none else some s

/-- `orgUrl.replace(/\/+$/, "")`: strip trailing slashes. -/
def stripTrailingSlashes (s : String) : String :=
  String.mk ((s.toList.reverse.dropWhile (fun c => c = '/')).reverse)

/-- `OKTA_SCOPES.split(/\s+/).filter(Boolean)`: the whitespace-separated
words of the scope addendum (splitting and dropping the empty fragments
the split produces). -/
def splitEnvScopes (s : String) : List String :=
  (jsSplit isJsWhitespace s).filter (fun w => w ≠ "")

/-- First-occurrence deduplication with an accumulator of already-seen
elements; `[...new Set(l)]` keeps exactly the first occurrence of each
element in insertion order. -/
def dedupFrom : List String → List String → List String
  | [], _ => []
  | x :: xs, seen =>
    if x ∈ seen then dedupFrom xs seen else x :: dedupFrom xs (x :: seen)

/-- Embedding of `mergeScopes` from the client module:
`[...new Set([...a, ...b])]`. -/
def mergeScopes (a b : List String) : List String :=
  dedupFrom (a ++ b) []

/-- The environment variables the `OktaClient` constructor reads. -/
structure Env where
  OKTA_ORG_URL : Option String
  OKTA_CLIENT_ID : Option String
  OKTA_PRIVATE_KEY : Option String
  OKTA_API_TOKEN : Option String
  OKTA_SCOPES : Option String
deriving Repr, DecidableEq

/-- `process.env.OKTA_SCOPES?.split(/\s+/).filter(Boolean) ?? []`: the
scope addendum words, empty when the variable is unset. -/
def envScopesOf (env : Env) : List String :=
  match env.OKTA_SCOPES with
  | none => []
  | some s => splitEnvScopes s

/-- The construction-time failures of `OktaClient` (source: the three
`throw new Error(...)` sites in the constructor).  `emptyScopeSet` is the
"OAuth 2.0 mode requires at least one scope" error the specification
names `EmptyScopeSet`. -/
inductive ConstructError : Type where
  | missingOrgUrl : ConstructError
  | authenticationRequired : ConstructError
  | emptyScopeSet : ConstructError
deriving Repr, DecidableEq

/-- The observable result of a successful construction: the API base URL,
the merged scope list handed to the token provider (empty in SSWS mode),
and whether an `OAuthTokenProvider` was created. -/
structure ClientModel where
  baseUrl : String
  scopes : List String
  hasTokenProvider : Bool
deriving Repr, DecidableEq

/-- Embedding of the `OktaClient` constructor.  `required` is
`options?.requiredScopes ?? []`.  The constructor performs no network
I/O: every failure is thrown before the `OAuthTokenProvider` is created,
and the provider itself only resolves the local private key at
construction. -/
def constructClient (env : Env) (required : List String) :
    Except ConstructError ClientModel :=
  match truthyEnv env.OKTA_ORG_URL with
  | none => .error .missingOrgUrl
  | some orgUrl =>
    let cleanOrgUrl := stripTrailingSlashes orgUrl
    let clientId := truthyEnv env.OKTA_CLIENT_ID
    let privateKey := truthyEnv env.OKTA_PRIVATE_KEY
    let apiToken := truthyEnv env.OKTA_API_TOKEN
    let useOAuth := clientId.isSome && privateKey.isSome
    if !useOAuth && apiToken.isNone then .error .authenticationRequired
    else
      let baseUrl := cleanOrgUrl ++ "/api/v1"
      if useOAuth then
        let scopes := mergeScopes required (envScopesOf env)
        if scopes.length = 0 then .error .emptyScopeSet
        else .ok { baseUrl := baseUrl, scopes := scopes, hasTokenProvider := true }
      else .ok { baseUrl := baseUrl, scopes := [], hasTokenProvider := false }

/-- The comma-split segments of a Link header that carry `rel="next"`,
with their URLs, in order of appearance. -/
def nextMatches (s : String) : List String :=
  (jsSplit (fun c => c = ',') s).filterMap segmentNext

end Okta

namespace Okta

/-! ## Theorems -/

theorem mem_dedupFrom (l : List String) (seen : List String) (x : String) :
    x ∈ dedupFrom l seen ↔ x ∈ l ∧ x ∉ seen := by
  induction l generalizing seen with
  | nil => simp [dedupFrom]
  | cons y ys ih =>
    simp only [dedupFrom]
    by_cases hy : y ∈ seen
    · rw [if_pos hy, ih]
      constructor
      · rintro ⟨hmem, hns⟩
        exact ⟨List.mem_cons_of_mem _ hmem, hns⟩
      · rintro ⟨hmem, hns⟩
        rcases List.mem_cons.mp hmem with rfl | h
        · exact absurd hy hns
        · exact ⟨h, hns⟩
    · rw [if_neg hy, List.mem_cons, ih]
      constructor
      · rintro (rfl | ⟨hmem, hns⟩)
        · exact ⟨List.mem_cons_self _ _, hy⟩
        · exact ⟨List.mem_cons_of_mem _ hmem,
                 fun hx => hns (List.mem_cons_of_mem _ hx)⟩
      · rintro ⟨hmem, hns⟩
        rcases List.mem_cons.mp hmem with rfl | h
        · exact Or.inl rfl
        · by_cases hxy : x = y
          · exact Or.inl hxy
          · refine Or.inr ⟨h, fun hx => ?_⟩
            rcases List.mem_cons.mp hx with h2 | h2
            · exact hxy h2
            · exact hns h2

theorem nodup_dedupFrom (l : List String) (seen : List String) :
    (dedupFrom l seen).Nodup := by
  induction l generalizing seen with
  | nil => simp [dedupFrom]
  | cons y ys ih =>
    simp only [dedupFrom]
    by_cases hy : y ∈ seen
    · rw [if_pos hy]
      exact ih seen
    · rw [if_neg hy, List.nodup_cons]
      refine ⟨fun hmem => ?_, ih (y :: seen)⟩
      exact ((mem_dedupFrom ys (y :: seen) y).mp hmem).2 (List.mem_cons_self y seen)

theorem mem_mergeScopes (a b : List String) (x : String) :
    x ∈ mergeScopes a b ↔ x ∈ a ∨ x ∈ b := by
  simp [mergeScopes, mem_dedupFrom, List.mem_append]

theorem nodup_mergeScopes (a b : List String) : (mergeScopes a b).Nodup :=
  nodup_dedupFrom (a ++ b) []

/-- C1 (counterexample): for a body whose code has a friendly entry
(`E0000001` with summary `foo`), the constructed display message is
`E0000001: API validation failed — foo`: the friendly description is
followed by an em-dash and the raw summary, so the message is not
`{code}: {friendlyDescription}` as claimed. -/
theorem C1_counterexample :
    lookupErrorCode "E0000001" = some "API validation failed" ∧
    (OktaApiError.ofBody 400 ⟨"E0000001", "foo", "", "", []⟩).message =
      "E0000001: API validation failed — foo" ∧
    (OktaApiError.ofBody 400 ⟨"E0000001", "foo", "", "", []⟩).message ≠
      "E0000001: API validation failed" := by
  refine ⟨rfl, rfl, ?_⟩
  decide

/-- C1 (amended): for every error body whose code has a (nonempty)
friendly entry in the static table, the constructed error's display
message is `{code}: {friendlyDescription} — {summary}`; for every body
whose code has no entry it is `{code}: {summary}`. -/
theorem C1_message_format :
    (∀ (status : Int) (body : OktaErrorBody) (f : String),
      lookupErrorCode body.errorCode = some f → f ≠ "" →
      (OktaApiError.ofBody status body).message =
        body.errorCode ++ ": " ++ f ++ " — " ++ body.errorSummary) ∧
    (∀ (status : Int) (body : OktaErrorBody),
      lookupErrorCode body.errorCode = none →
      (OktaApiError.ofBody status body).message =
        body.errorCode ++ ": " ++ body.errorSummary) := by
  constructor
  · intro status body f hf hne
    simp [OktaApiError.ofBody, oktaApiErrorMessage, hf, hne]
  · intro status body hf
    simp [OktaApiError.ofBody, oktaApiErrorMessage, hf]

/-- C1 (witness): the amended message format evaluated on concrete
bodies, one with a friendly entry and one without. -/
theorem C1_message_format_witness :
    (OktaApiError.ofBody 403 ⟨"E0000004", "x", "", "", []⟩).message =
      "E0000004: Authentication failed — x" ∧
    (OktaApiError.ofBody 404 ⟨"ZZZ", "y", "", "", []⟩).message = "ZZZ: y" := by
  exact ⟨C1_message_format.1 403 ⟨"E0000004", "x", "", "", []⟩
           "Authentication failed" rfl (by decide),
         C1_message_format.2 404 ⟨"ZZZ", "y", "", "", []⟩ rfl⟩

/-- C2 (counterexample): a refresh whose token response carries an empty
`access_token` caches the empty string; a second call 1 second later —
well inside the claimed no-refresh window for `expires_in = 3600` —
nevertheless performs a refresh, because the JavaScript truthiness guard
`this.accessToken && ...` fails on the empty string.  The claim's
"token is cached ⇒ cached string returned with no refresh" is therefore
false at this input. -/
theorem C2_counterexample :
    (refresh 0 ⟨"", 3600⟩).2 = { accessToken := some "", expiresAt := 3600000 } ∧
    (getAccessToken { accessToken := some "", expiresAt := 3600000 } 1000
        ⟨"t2", 3600⟩).2.2 = true := by
  exact ⟨rfl, rfl⟩

/-- C2 (amended): if a *nonempty* token is cached and now is strictly
before expiry minus the 60000 ms buffer, the cached string is returned
with no refresh; otherwise (no cached token, an empty cached token, or
now at or past expiry minus buffer) a refresh is performed, the new token
and expiry `now + expires_in * 1000` replace the cache, and the new token
is returned.  After a refresh with `expires_in = 3600` returning a
nonempty token, a call less than 3540 s later returns the identical
cached string with no refresh, and a call at 3541 s refreshes. -/
theorem C2_token_cache :
    (∀ (st : TokenState) (now : Int) (resp : TokenResponse) (tok : String),
      st.accessToken = some tok → tok ≠ "" → now < st.expiresAt - EXPIRY_BUFFER_MS →
      getAccessToken st now resp = (tok, st, false)) ∧
    (∀ (st : TokenState) (now : Int) (resp : TokenResponse),
      (st.accessToken = none ∨ st.accessToken = some "" ∨
        st.expiresAt - EXPIRY_BUFFER_MS ≤ now) →
      getAccessToken st now resp =
        (resp.access_token,
         { accessToken := some resp.access_token,
           expiresAt := now + resp.expires_in * 1000 }, true)) ∧
    (∀ (t0 d : Int) (t : String) (resp2 : TokenResponse), t ≠ "" → d < 3540000 →
      getAccessToken (refresh t0 ⟨t, 3600⟩).2 (t0 + d) resp2 =
        (t, (refresh t0 ⟨t, 3600⟩).2, false)) ∧
    (∀ (t0 : Int) (t : String) (resp2 : TokenResponse),
      getAccessToken (refresh t0 ⟨t, 3600⟩).2 (t0 + 3541000) resp2 =
        (resp2.access_token,
         { accessToken := some resp2.access_token,
           expiresAt := t0 + 3541000 + resp2.expires_in * 1000 }, true)) := by
  have hit : ∀ (st : TokenState) (now : Int) (resp : TokenResponse) (tok : String),
      st.accessToken = some tok → tok ≠ "" → now < st.expiresAt - EXPIRY_BUFFER_MS →
      getAccessToken st now resp = (tok, st, false) := by
    intro st now resp tok htok hne hlt
    simp [getAccessToken, htok, hne, hlt]
  have miss : ∀ (st : TokenState) (now : Int) (resp : TokenResponse),
      (st.accessToken = none ∨ st.accessToken = some "" ∨
        st.expiresAt - EXPIRY_BUFFER_MS ≤ now) →
      getAccessToken st now resp =
        (resp.access_token,
         { accessToken := some resp.access_token,
           expiresAt := now + resp.expires_in * 1000 }, true) := by
    intro st now resp h
    rcases h with h | h | h
    · simp [getAccessToken, h, refresh]
    · simp [getAccessToken, h, refresh]
    · cases htok : st.accessToken with
      | none => simp [getAccessToken, htok, refresh]
      | some tok =>
        have : ¬ (tok ≠ "" ∧ now < st.expiresAt - EXPIRY_BUFFER_MS) := by
          rintro ⟨-, hlt⟩
          omega
        simp [getAccessToken, htok, this, refresh]
  refine ⟨hit, miss, ?_, ?_⟩
  · intro t0 d t resp2 hne hd
    refine hit _ _ _ _ rfl hne ?_
    show t0 + d < (t0 + 3600 * 1000) - EXPIRY_BUFFER_MS
    simp only [EXPIRY_BUFFER_MS]
    omega
  · intro t0 t resp2
    refine miss _ _ _ (Or.inr (Or.inr ?_))
    show (t0 + 3600 * 1000) - EXPIRY_BUFFER_MS ≤ t0 + 3541000
    simp only [EXPIRY_BUFFER_MS]
    omega

/-- C2 (witness): the amended cache behaviour evaluated on concrete
states, times and responses. -/
theorem C2_token_cache_witness :
    getAccessToken { accessToken := some "tokA", expiresAt := 3600000 } 1000
      ⟨"tokB", 3600⟩ = ("tokA", { accessToken := some "tokA", expiresAt := 3600000 }, false) ∧
    getAccessToken { accessToken := none, expiresAt := 0 } 5 ⟨"tokB", 3600⟩ =
      ("tokB", { accessToken := some "tokB", expiresAt := 3600005 }, true) ∧
    getAccessToken (refresh 0 ⟨"tokA", 3600⟩).2 (0 + 1000) ⟨"tokB", 3600⟩ =
      ("tokA", (refresh 0 ⟨"tokA", 3600⟩).2, false) ∧
    getAccessToken (refresh 0 ⟨"tokA", 3600⟩).2 (0 + 3541000) ⟨"tokB", 3600⟩ =
      ("tokB", { accessToken := some "tokB", expiresAt := 0 + 3541000 + 3600 * 1000 }, true) := by
  refine ⟨?_, ?_, ?_, ?_⟩
  · exact C2_token_cache.1 _ 1000 _ "tokA" rfl (by decide) (by decide)
  · exact C2_token_cache.2.1 _ 5 _ (Or.inl rfl)
  · exact C2_token_cache.2.2.1 0 1000 "tokA" ⟨"tokB", 3600⟩ (by decide) (by decide)
  · exact C2_token_cache.2.2.2 0 "tokA" ⟨"tokB", 3600⟩

/-- C3: four consecutive 429 failures (each carrying its request config)
are replayed exactly three times — the counter starts at 0 and each 429
with counter below the ceiling increments it and replays — and the error
finally surfaced is the fourth 429, with one wait recorded per replay;
any non-429 failure is rejected with no retry, and any successful
response passes through with no retry. -/
theorem C3_retry_exhaustion :
    (∀ e1 e2 e3 e4 : RetryErr,
      e1.hasConfig = true → e1.status = some 429 →
      e2.hasConfig = true → e2.status = some 429 →
      e3.hasConfig = true → e3.status = some 429 →
      e4.hasConfig = true → e4.status = some 429 →
      runWithRetries [.failure e1, .failure e2, .failure e3, .failure e4] 0 =
        (.rejected e4, 3,
         [retryAfterSeconds e1.retryAfter, retryAfterSeconds e2.retryAfter,
          retryAfterSeconds e3.retryAfter])) ∧
    (∀ (e : RetryErr) (rest : List AttemptResult) (n : Nat),
      ¬ e.status = some 429 →
      runWithRetries (.failure e :: rest) n = (.rejected e, 0, [])) ∧
    (∀ (i : Nat) (rest : List AttemptResult) (n : Nat),
      runWithRetries (.success i :: rest) n = (.fulfilled i, 0, [])) := by
  refine ⟨?_, ?_, ?_⟩
  · intro e1 e2 e3 e4 hc1 hs1 hc2 hs2 hc3 hs3 hc4 hs4
    simp [runWithRetries, interceptorRetries, MAX_RETRIES,
          hc1, hs1, hc2, hs2, hc3, hs3, hc4, hs4]
  · intro e rest n hs
    have : (e.status == some 429) = false := by
      cases h : e.status == some 429
      · rfl
      · exact absurd (eq_of_beq h) hs
    cases hc : e.hasConfig <;>
      simp [runWithRetries, interceptorRetries, hc, this]
  · intro i rest n
    rfl

/-- C3 (witness): four concrete 429 failures with `Retry-After: 1`
surface the fourth failure after exactly three replays, each with a
1-second wait; a 500 passes through rejected with no retry; a success
passes through with no retry. -/
theorem C3_retry_exhaustion_witness :
    runWithRetries
        [.failure ⟨1, true, some 429, some "1"⟩, .failure ⟨2, true, some 429, some "1"⟩,
         .failure ⟨3, true, some 429, some "1"⟩, .failure ⟨4, true, some 429, some "1"⟩] 0 =
      (.rejected ⟨4, true, some 429, some "1"⟩, 3, [.fin 1 0, .fin 1 0, .fin 1 0]) ∧
    runWithRetries [.failure ⟨1, true, some 500, none⟩] 0 =
      (.rejected ⟨1, true, some 500, none⟩, 0, []) ∧
    runWithRetries [.success 7] 0 = (.fulfilled 7, 0, []) := by
  refine ⟨?_, ?_, ?_⟩
  · have h := C3_retry_exhaustion.1 ⟨1, true, some 429, some "1"⟩
      ⟨2, true, some 429, some "1"⟩ ⟨3, true, some 429, some "1"⟩
      ⟨4, true, some 429, some "1"⟩ rfl rfl rfl rfl rfl rfl rfl rfl
    simpa using h
  · exact C3_retry_exhaustion.2.1 ⟨1, true, some 500, none⟩ [] 0 (by decide)
  · exact C3_retry_exhaustion.2.2 7 [] 0

/-- C4 (counterexample): a 429 whose `Retry-After` header is the string
`"0"` is retried with a wait of 0 seconds — the header is truthy and
numeric, so the value is used as-is.  The claim's "never 0 seconds" is
therefore false at this input. -/
theorem C4_counterexample :
    retryAfterSeconds (some "0") = .fin 0 0 ∧
    (JSNum.fin 0 0).toRat = some 0 ∧
    runWithRetries [.failure ⟨1, true, some 429, some "0"⟩, .success 2] 0 =
      (.fulfilled 2, 1, [.fin 0 0]) := by
  refine ⟨rfl, ?_, rfl⟩
  simp [JSNum.toRat]

/-- C4 (amended): for every 429 the interceptor retries, the wait before
replay is the `Retry-After` header value under JavaScript `Number`
conversion, used as-is (including `0` and fractional values), and
defaults to exactly 1 second when the header is missing, empty, or
non-numeric; the computation never fails. -/
theorem C4_retry_wait :
    (∀ (e : RetryErr) (rest : List AttemptResult) (n : Nat),
      interceptorRetries e n = true →
      (runWithRetries (.failure e :: rest) n).2.2.head? =
        some (retryAfterSeconds e.retryAfter)) ∧
    retryAfterSeconds none = .fin 1 0 ∧
    retryAfterSeconds (some "") = .fin 1 0 ∧
    (∀ s : String, jsStringToNumber s = .nan → retryAfterSeconds (some s) = .fin 1 0) ∧
    (∀ (s : String) (v : JSNum), s ≠ "" → jsStringToNumber s = v → v ≠ .nan →
      retryAfterSeconds (some s) = v) := by
  refine ⟨?_, rfl, rfl, ?_, ?_⟩
  · intro e rest n h
    simp [runWithRetries, h]
  · intro s h
    simp [retryAfterSeconds, h]
  · intro s v hs hv hnan
    simp only [retryAfterSeconds, if_neg hs, hv]

/-- C4 (witness): the amended wait rule evaluated on concrete headers — a
numeric header `"7"` is used as-is (also as the recorded wait of a
retried 429), and a missing, empty or non-numeric header defaults to 1. -/
theorem C4_retry_wait_witness :
    (runWithRetries [.failure ⟨1, true, some 429, some "7"⟩] 0).2.2.head? =
      some (JSNum.fin 7 0) ∧
    retryAfterSeconds none = .fin 1 0 ∧
    retryAfterSeconds (some "") = .fin 1 0 ∧
    retryAfterSeconds (some "soon") = .fin 1 0 ∧
    retryAfterSeconds (some "7") = .fin 7 0 := by
  refine ⟨?_, C4_retry_wait.2.1, C4_retry_wait.2.2.1, ?_, ?_⟩
  · have h := C4_retry_wait.1 ⟨1, true, some 429, some "7"⟩ [] 0 rfl
    simpa using h
  · exact C4_retry_wait.2.2.2.1 "soon" rfl
  · exact C4_retry_wait.2.2.2.2 "7" (.fin 7 0) (by decide) rfl (by decide)

/-- C10: a failure that reaches the interceptor without a request config
is rejected to the caller unchanged, with no retry and no wait, even when
its response status is 429. -/
theorem C10_no_config_rejects :
    ∀ (e : RetryErr) (rest : List AttemptResult) (n : Nat),
      e.hasConfig = false →
      runWithRetries (.failure e :: rest) n = (.rejected e, 0, []) := by
  intro e rest n h
  simp [runWithRetries, interceptorRetries, h]

/-- C10 (witness): a concrete config-less 429 failure is rejected
unchanged with zero retries. -/
theorem C10_no_config_rejects_witness :
    runWithRetries [.failure ⟨9, false, some 429, some "1"⟩, .success 3] 0 =
      (.rejected ⟨9, false, some 429, some "1"⟩, 0, []) :=
  C10_no_config_rejects ⟨9, false, some 429, some "1"⟩ [.success 3] 0 rfl

theorem foldl_segmentNext (l : List String) (acc : Option String) :
    l.foldl
        (fun a part =>
          match segmentNext part with
          | some url => some url
          | none => a)
        acc =
      match (l.filterMap segmentNext).getLast? with
      | some u => some u
      | none => acc := by
  induction l generalizing acc with
  | nil => rfl
  | cons x xs ih =>
    rw [List.foldl_cons, ih, List.filterMap_cons]
    cases hx : segmentNext x with
    | none => rfl
    | some u0 =>
      cases ht : xs.filterMap segmentNext with
      | nil => simp
      | cons y ys =>
        rw [List.getLast?_cons_cons]
        have hne : y :: ys ≠ [] := by simp
        rw [List.getLast?_eq_getLast_of_ne_nil hne]

/-- C5: each iteration of the pagination walk yields the current page
body; when the Link header has a `rel="next"` segment the next request
targets that URL's path+query with the caller-supplied parameters
dropped, and when it has none the walk terminates — so a page-1 response
with a `rel="next"` link followed by a page-2 response without one yields
exactly two pages, the second request taking its query entirely from the
cursor URL. -/
theorem C5_pagination_walk :
    (∀ (α β : Type) (path : String) (params : Option α) (r1 r2 : PageResponse β)
        (next : String),
      parseLinkHeader r1.link = some next →
      parseLinkHeader r2.link = none →
      fetchAllPages path params [r1, r2] =
        ([⟨path, params⟩, ⟨resolveNextUrl next, none⟩], [r1.data, r2.data], true)) ∧
    (∀ (α β : Type) (url : String) (params : Option α) (r : PageResponse β)
        (rest : List (PageResponse β)) (next : String),
      parseLinkHeader r.link = some next →
      fetchAllPages url params (r :: rest) =
        ((⟨url, params⟩ : PageRequest α) ::
            (fetchAllPages (resolveNextUrl next) (none : Option α) rest).1,
         r.data :: (fetchAllPages (resolveNextUrl next) (none : Option α) rest).2.1,
         (fetchAllPages (resolveNextUrl next) (none : Option α) rest).2.2)) ∧
    (∀ (α β : Type) (url : String) (params : Option α) (r : PageResponse β)
        (rest : List (PageResponse β)),
      parseLinkHeader r.link = none →
      fetchAllPages url params (r :: rest) = ([⟨url, params⟩], [r.data], true)) := by
  refine ⟨?_, ?_, ?_⟩
  · intro α β path params r1 r2 next h1 h2
    simp [fetchAllPages, h1, h2]
  · intro α β url params r rest next h
    simp [fetchAllPages, h]
  · intro α β url params r rest h
    simp [fetchAllPages, h]

/-- C5 (witness): a concrete two-page walk — page 1 carries
`Link: <https://org.okta.com/api/v1/users?after=abc>; rel="next"`, page 2
has no Link header; the walker yields exactly the two page bodies, and
the second request is `/api/v1/users?after=abc` with no caller
parameters. -/
theorem C5_pagination_walk_witness :
    fetchAllPages "/users" (some "limit=2")
        [⟨(10 : Nat), some "<https://org.okta.com/api/v1/users?after=abc>; rel=\"next\""⟩,
         ⟨20, none⟩] =
      ([⟨"/users", some "limit=2"⟩, ⟨"/api/v1/users?after=abc", (none : Option String)⟩],
       [10, 20], true) ∧
    resolveNextUrl "https://org.okta.com/api/v1/users?after=abc" =
      "/api/v1/users?after=abc" := by
  constructor
  · have h := C5_pagination_walk.1 String Nat "/users" (some "limit=2")
      ⟨10, some "<https://org.okta.com/api/v1/users?after=abc>; rel=\"next\""⟩ ⟨20, none⟩
      "https://org.okta.com/api/v1/users?after=abc" rfl rfl
    rw [h]
    rfl
  · rfl

/-- C9: in a Link header (nonempty, with at least two comma-separated
`rel="next"` segments) the parser returns the URL of the *last* matching
segment — the fold overwrites earlier matches — characterised here as the
last element of the in-order match list. -/
theorem C9_last_next_wins :
    ∀ (s : String), s ≠ "" → 2 ≤ (nextMatches s).length →
      parseLinkHeader (some s) = (nextMatches s).getLast? := by
  intro s hs _
  simp only [parseLinkHeader, if_neg hs, nextMatches]
  rw [foldl_segmentNext]
  cases ((jsSplit (fun c => c = ',') s).filterMap segmentNext).getLast? with
  | none => rfl
  | some u => rfl

/-- C9 (witness): a header with two `rel="next"` segments yields the
second URL, which differs from the first. -/
theorem C9_last_next_wins_witness :
    nextMatches "<https://x/a>; rel=\"next\", <https://x/b>; rel=\"next\"" =
      ["https://x/a", "https://x/b"] ∧
    parseLinkHeader (some "<https://x/a>; rel=\"next\", <https://x/b>; rel=\"next\"") =
      some "https://x/b" ∧
    "https://x/b" ≠ "https://x/a" := by
  refine ⟨rfl, ?_, by decide⟩
  have h := C9_last_next_wins "<https://x/a>; rel=\"next\", <https://x/b>; rel=\"next\""
    (by decide) (by decide)
  rw [h]
  rfl

/-- C6: the error-body parser matches exactly the non-null objects that
carry both an `errorCode` and an `errorSummary` property (and no other
value; the function is total, so it never throws); on a match the two
mandatory fields are `String(...)`-coercions of the property values, and
`errorLink`, `errorId` and `errorCauses` default to `""`, `""` and `[]`
when absent (or, for `errorCauses`, not an array). -/
theorem C6_error_body_parse :
    (∀ v : JSValue, (parseOktaErrorBody v).isSome ↔
      ∃ fields, v = .obj fields ∧ (jsGet fields "errorCode").isSome ∧
        (jsGet fields "errorSummary").isSome) ∧
    (∀ (fields : List (String × JSValue)) (b : OktaErrorBody),
      parseOktaErrorBody (.obj fields) = some b →
      b.errorCode = jsToString ((jsGet fields "errorCode").getD .undef) ∧
      b.errorSummary = jsToString ((jsGet fields "errorSummary").getD .undef) ∧
      (jsGet fields "errorLink" = none → b.errorLink = "") ∧
      (jsGet fields "errorId" = none → b.errorId = "") ∧
      ((∀ cs, jsGet fields "errorCauses" ≠ some (.arr cs)) → b.errorCauses = [])) := by
  constructor
  · intro v
    cases v with
    | obj fields =>
      by_cases h1 : (jsGet fields "errorCode").isSome <;>
        by_cases h2 : (jsGet fields "errorSummary").isSome <;>
          simp [parseOktaErrorBody, isObjectType, hasProp, h1, h2]
    | null => simp [parseOktaErrorBody, isObjectType, hasProp]
    | undef => simp [parseOktaErrorBody, isObjectType, hasProp]
    | bool b => simp [parseOktaErrorBody, isObjectType, hasProp]
    | num n => simp [parseOktaErrorBody, isObjectType, hasProp]
    | str s => simp [parseOktaErrorBody, isObjectType, hasProp]
    | arr xs => simp [parseOktaErrorBody, isObjectType, hasProp]
  · intro fields b h
    by_cases h1 : (jsGet fields "errorCode").isSome
    · by_cases h2 : (jsGet fields "errorSummary").isSome
      · simp [parseOktaErrorBody, isObjectType, hasProp, h1, h2] at h
        subst h
        refine ⟨rfl, rfl, ?_, ?_, ?_⟩
        · intro hl
          simp [hl, nullishToEmptyString, jsToString]
        · intro hi
          simp [hi, nullishToEmptyString, jsToString]
        · intro hc
          show (match jsGet fields "errorCauses" with
                | some (.arr cs) => cs.map (fun c =>
                    { errorSummary :=
                        jsToString (nullishToEmptyString (optChainErrorSummary c)) })
                | _ => ([] : List OktaErrorCause)) = []
          cases hq : jsGet fields "errorCauses" with
          | none => rfl
          | some v =>
            cases v with
            | arr cs => exact absurd hq (hc cs)
            | null => rfl
            | undef => rfl
            | bool b2 => rfl
            | num n => rfl
            | str s => rfl
            | obj fs => rfl
      · simp [parseOktaErrorBody, isObjectType, hasProp, h1, h2] at h
    · simp [parseOktaErrorBody, isObjectType, hasProp, h1] at h

/-- C6 (witness): a concrete object with both mandatory properties
parses, its mandatory fields string-coerced and its optional fields
defaulting to empty; a string, `null`, and an object missing `errorCode`
all yield no match. -/
theorem C6_error_body_parse_witness :
    parseOktaErrorBody (.obj [("errorCode", .num 5), ("errorSummary", .null)]) =
      some ⟨"5", "null", "", "", []⟩ ∧
    ((⟨"5", "null", "", "", []⟩ : OktaErrorBody).errorLink = "" ∧
     (⟨"5", "null", "", "", []⟩ : OktaErrorBody).errorCauses = []) ∧
    parseOktaErrorBody (.str "E0000004") = none ∧
    parseOktaErrorBody .null = none ∧
    parseOktaErrorBody (.obj [("errorSummary", .str "s")]) = none := by
  refine ⟨rfl, ⟨?_, ?_⟩, rfl, rfl, rfl⟩
  · exact (C6_error_body_parse.2 [("errorCode", .num 5), ("errorSummary", .null)]
      ⟨"5", "null", "", "", []⟩ rfl).2.2.1 rfl
  · exact (C6_error_body_parse.2 [("errorCode", .num 5), ("errorSummary", .null)]
      ⟨"5", "null", "", "", []⟩ rfl).2.2.2.2 (fun cs h => Option.noConfusion h)

/-- C7: for every OAuth-mode construction (truthy org URL, client id and
private key), the requested scope set is the duplicate-free union of the
caller-declared required scopes and the whitespace-separated environment
addendum, in first-occurrence order; when that union is empty the
constructor fails with the empty-scope-set error (thrown before the token
provider is created and before any request exists), and otherwise it
succeeds with exactly that scope list and an OAuth token provider. -/
theorem C7_scope_union :
    ∀ (env : Env) (required : List String) (orgUrl cid pk : String),
      truthyEnv env.OKTA_ORG_URL = some orgUrl →
      truthyEnv env.OKTA_CLIENT_ID = some cid →
      truthyEnv env.OKTA_PRIVATE_KEY = some pk →
      ((mergeScopes required (envScopesOf env)).Nodup ∧
       (∀ x, x ∈ mergeScopes required (envScopesOf env) ↔
          (x ∈ required ∨ x ∈ envScopesOf env))) ∧
      (mergeScopes required (envScopesOf env) = [] →
        constructClient env required = .error .emptyScopeSet) ∧
      (mergeScopes required (envScopesOf env) ≠ [] →
        constructClient env required =
          .ok { baseUrl := stripTrailingSlashes orgUrl ++ "/api/v1",
                scopes := mergeScopes required (envScopesOf env),
                hasTokenProvider := true }) := by
  intro env required orgUrl cid pk h1 h2 h3
  refine ⟨⟨nodup_mergeScopes _ _, fun x => mem_mergeScopes _ _ x⟩, ?_, ?_⟩
  · intro hempty
    simp [constructClient, h1, h2, h3, hempty]
  · intro hne
    simp [constructClient, h1, h2, h3, List.length_eq_zero, hne]

/-- C7 (witness): with no scope addendum and no required scopes,
construction fails with the empty-scope-set error; with required scopes
`["b", "c"]` and addendum `"a b a"`, it succeeds with the duplicate-free
union `["b", "c", "a"]`. -/
theorem C7_scope_union_witness :
    constructClient ⟨some "https://o.okta.com/", some "cid", some "pk", none, none⟩ [] =
      .error .emptyScopeSet ∧
    constructClient ⟨some "https://o.okta.com/", some "cid", some "pk", none,
        some "a b a"⟩ ["b", "c"] =
      .ok { baseUrl := "https://o.okta.com/api/v1", scopes := ["b", "c", "a"],
            hasTokenProvider := true } ∧
    (mergeScopes ["b", "c"]
      (envScopesOf ⟨some "https://o.okta.com/", some "cid", some "pk", none,
        some "a b a"⟩)).Nodup := by
  refine ⟨?_, ?_, ?_⟩
  · exact (C7_scope_union ⟨some "https://o.okta.com/", some "cid", some "pk", none, none⟩
      [] "https://o.okta.com/" "cid" "pk" rfl rfl rfl).2.1 rfl
  · have h := (C7_scope_union ⟨some "https://o.okta.com/", some "cid", some "pk", none,
      some "a b a"⟩ ["b", "c"] "https://o.okta.com/" "cid" "pk" rfl rfl rfl).2.2
      (by decide)
    rw [h]
    rfl
  · exact (C7_scope_union ⟨some "https://o.okta.com/", some "cid", some "pk", none,
      some "a b a"⟩ ["b", "c"] "https://o.okta.com/" "cid" "pk" rfl rfl rfl).1.1

/-- C8: credential resolution branches exactly on whether the trimmed
input starts with `{` — the JWK path accepts exactly when the JSON/JWK
interpretation does and turns any of its failures into the
invalid-credential-format error, while the PEM path first replaces every
literal two-character backslash-n sequence with a newline and surfaces
any crypto-layer failure unchanged; no other path exists. -/
theorem C8_credential_resolution :
    ∀ (Key : Type) (jwkResolve : String → Option Key)
      (pemResolve : String → Except String Key) (input : String),
      ((jsTrim input).toList.head? = some '{' →
        resolvePrivateKey jwkResolve pemResolve input =
          (match jwkResolve (jsTrim input) with
           | some k => .ok k
           | none => .error .invalidCredentialFormat)) ∧
      (¬ (jsTrim input).toList.head? = some '{' →
        resolvePrivateKey jwkResolve pemResolve input =
          (match pemResolve (unescapeNewlines (jsTrim input)) with
           | .ok k => .ok k
           | .error e => .error (.cryptoFailure e))) ∧
      (resolvePrivateKey jwkResolve pemResolve input = .error .invalidCredentialFormat ↔
        ((jsTrim input).toList.head? = some '{' ∧ jwkResolve (jsTrim input) = none)) ∧
      (∀ e, resolvePrivateKey jwkResolve pemResolve input = .error (.cryptoFailure e) ↔
        (¬ (jsTrim input).toList.head? = some '{' ∧
          pemResolve (unescapeNewlines (jsTrim input)) = .error e)) := by
  intro Key jwkResolve pemResolve input
  simp only [String.toList]
  by_cases hb : (jsTrim input).data.head? = some '{'
  · refine ⟨fun _ => ?_, fun h => absurd hb h, ?_, ?_⟩
    · simp only [resolvePrivateKey, String.toList, if_pos hb]
    · cases hj : jwkResolve (jsTrim input) with
      | some k => simp [resolvePrivateKey, String.toList, if_pos hb, hj]
      | none => simp [resolvePrivateKey, String.toList, if_pos hb, hj, hb]
    · intro e
      cases hj : jwkResolve (jsTrim input) with
      | some k => simp [resolvePrivateKey, String.toList, if_pos hb, hj, hb]
      | none => simp [resolvePrivateKey, String.toList, if_pos hb, hj, hb]
  · refine ⟨fun h => absurd h hb, fun _ => ?_, ?_, ?_⟩
    · simp only [resolvePrivateKey, String.toList, if_neg hb]
    · cases hp : pemResolve (unescapeNewlines (jsTrim input)) with
      | ok k => simp [resolvePrivateKey, String.toList, if_neg hb, hp, hb]
      | error e => simp [resolvePrivateKey, String.toList, if_neg hb, hp, hb]
    · intro e
      cases hp : pemResolve (unescapeNewlines (jsTrim input)) with
      | ok k => simp [resolvePrivateKey, String.toList, if_neg hb, hp, hb]
      | error e2 => simp [resolvePrivateKey, String.toList, if_neg hb, hp, hb]

/-- C8 (witness): a JSON-looking input whose JWK interpretation fails
yields the invalid-credential-format error; one whose interpretation
succeeds yields its key; a PEM input has its escaped newlines replaced
before the crypto layer sees it; and a crypto-layer failure surfaces
as-is. -/
theorem C8_credential_resolution_witness :
    resolvePrivateKey (fun _ => (none : Option String)) (fun s => .ok s) "  {x}  " =
      .error .invalidCredentialFormat ∧
    resolvePrivateKey (fun _ => some "KEY") (fun s => .ok s) "{x}" = .ok "KEY" ∧
    resolvePrivateKey (fun _ => (none : Option String)) (fun s => .ok s) "ab\\ncd" =
      .ok "ab\ncd" ∧
    resolvePrivateKey (fun _ => (none : Option String)) (fun _ => .error "bad pem") "ab" =
      .error (.cryptoFailure "bad pem") := by
  refine ⟨?_, ?_, ?_, ?_⟩
  · exact (C8_credential_resolution String (fun _ => none) (fun s => .ok s)
      "  {x}  ").2.2.1.mpr ⟨rfl, rfl⟩
  · have h := (C8_credential_resolution String (fun _ => some "KEY") (fun s => .ok s)
      "{x}").1 rfl
    rw [h]
  · have h := (C8_credential_resolution String (fun _ => none) (fun s => .ok s)
      "ab\\ncd").2.1 (by decide)
    rw [h]
    rfl
  · exact ((C8_credential_resolution String (fun _ => none) (fun _ => .error "bad pem")
      "ab").2.2.2 "bad pem").mpr ⟨by decide, rfl⟩

end Okta


